import Mathlib

/-!
Shallow embedding of `src/main.rs` of the sheets-diff repository: a polling
loop that fetches a spreadsheet snapshot, diffs it row-by-row against the
previously retained snapshot, and posts one webhook notification per changed
row, with error classification and a globally throttled alert on source
errors.

Cell values (`serde_json::Value`) are modelled by the closed union `Value`
(numbers restricted to integers, which is all the claims exercise).  Network
effects are modelled by explicit oracles: a `FetchBehavior` records the
duration and result of one fetch, and `sendOk : Nat → Bool` tells whether the
k-th webhook dispatch of a cycle succeeds.
-/

/-- Embedding of `serde_json::Value` as used by the program: a cell is a
string, a number (modelled as an integer), a boolean, or null. -/
inductive Value where
  | str (s : String)
  | num (n : Int)
  | bool (b : Bool)
  | null
  deriving DecidableEq

/-- One hexadecimal digit, lowercase, as emitted by serde_json escapes. -/
def hexDigit (n : Nat) : Char :=
  if n < 10 then Char.ofNat (48 + n) else Char.ofNat (87 + n)

/-- JSON string escaping of one character as performed by
`serde_json::Value::to_string` on string cells. -/
def jsonEscapeChar (c : Char) : String :=
  if c = '"' then "\\\""
  else if c = '\\' then "\\\\"
  else if c = Char.ofNat 8 then "\\b"
  else if c = Char.ofNat 12 then "\\f"
  else if c = '\n' then "\\n"
  else if c = '\r' then "\\r"
  else if c = '\t' then "\\t"
  else if c.toNat < 32 then
    "\\u00" ++ String.singleton (hexDigit (c.toNat / 16))
            ++ String.singleton (hexDigit (c.toNat % 16))
  else String.singleton c

/-- JSON rendering of a cell, embedding `value.to_string()` on a
`serde_json::Value` (`main.rs` line 83): strings are quoted and escaped,
numbers print in decimal, booleans as `true`/`false`, null as `null`. -/
def renderCell : Value → String
  | Value.str s => "\"" ++ String.join (s.data.map jsonEscapeChar) ++ "\""
  | Value.num n => toString n
  | Value.bool b => if b then "true" else "false"
  | Value.null => "null"

/-- Embedding of `SheetsContent = Vec<Vec<Value>>`. -/
abbrev SheetsContent := List (List Value)

/-- Embedding of `AppError` (`main.rs` lines 60-68): `GoogleAPI` wraps an
upstream sheets error, `Timeout` a bounded-wait overrun, `Other` any anyhow
error (malformed row, notifier dispatch failure, shape errors), carrying the
context message. -/
inductive AppError where
  | googleAPI (e : String)
  | timeout
  | other (m : String)
  deriving DecidableEq

deriving instance DecidableEq for Except

/-- Behaviour of one fetch from the Row Source Client: how many time-units it
takes and what it returns once complete. -/
structure FetchBehavior where
  duration : Nat
  result : Except AppError SheetsContent

/-- Embedding of `get_sheet_values` (`main.rs` lines 116-120): returns the
source's result, with no bound on the fetch duration. -/
def get_sheet_values (f : FetchBehavior) : Except AppError SheetsContent :=
  f.result

/-- Embedding of `get_sheet_values_timeout` (`main.rs` lines 122-127): races
the fetch against a fixed 5-time-unit timeout; if the fetch takes longer the
cycle gets `AppError::Timeout`, otherwise the fetch's own result. -/
def get_sheet_values_timeout (f : FetchBehavior) : Except AppError SheetsContent :=
  if 5 < f.duration then Except.error AppError.timeout else f.result

/-- Splitting a character list at every occurrence of a separator, keeping
empty segments (the list-level core of `str::split`). -/
def splitOnChar (sep : Char) : List Char → List (List Char)
  | [] => [[]]
  | c :: cs =>
    if c = sep then [] :: splitOnChar sep cs
    else match splitOnChar sep cs with
      | [] => [[c]]
      | y :: ys => (c :: y) :: ys

/-- Embedding of Rust `str::lines`: split on newline, recognising a trailing
carriage return on each line, with no final empty line for a trailing
newline. -/
def rustLines (s : String) : List String :=
  let parts := splitOnChar (Char.ofNat 10) s.data
  let parts := match parts.getLast? with
    | some [] => parts.dropLast
    | _ => parts
  parts.map (fun l =>
    match l.getLast? with
    | some c => if c = Char.ofNat 13 then ⟨l.dropLast⟩ else ⟨l⟩
    | none => ⟨l⟩)

/-- Accumulating tokenizer behind `str::split_whitespace`: `acc` holds the
current token reversed. -/
def splitWhitespaceAux : List Char → List Char → List (List Char)
  | [], acc => if acc.isEmpty then [] else [acc.reverse]
  | c :: cs, acc =>
    if c.isWhitespace then
      (if acc.isEmpty then [] else [acc.reverse]) ++ splitWhitespaceAux cs []
    else splitWhitespaceAux cs (c :: acc)

/-- Embedding of Rust `str::split_whitespace`: the maximal non-empty
whitespace-free tokens of the line. -/
def whitespaceTokens (line : String) : List String :=
  (splitWhitespaceAux line.data []).map (fun t => ⟨t⟩)

/-- Embedding of `load_ids` (`main.rs` lines 105-114).  The file contents are
`none` when the file is missing or unreadable (`unwrap_or_default` then gives
the empty mapping).  Each line contributes the pair of its first two
whitespace-separated tokens, stored verbatim; lines with fewer than two
tokens contribute nothing.  The `HashMap` is modelled as the association list
in insertion order, with lookup taking the last binding of a key (later
inserts overwrite earlier ones). -/
def load_ids (file : Option String) : List (String × String) :=
  match file with
  | none => []
  | some content =>
    (rustLines content).filterMap (fun line =>
      match whitespaceTokens line with
      | key :: value :: _ => some (key, value)
      | _ => none)

/-- Lookup in the ids `HashMap`: the last binding of the key, matching
`HashMap::from_iter` overwrite semantics. -/
def idsLookup (ids : List (String × String)) (k : String) : Option String :=
  (ids.reverse.find? (fun p => p.1 = k)).map (fun p => p.2)

/-- Embedding of Rust `str::to_uppercase` as used on the first cell
(ASCII model: each character is uppercased via `Char.toUpper`; it agrees
with `String.toUpper`). -/
def rustToUpper (s : String) : String :=
  ⟨s.data.map Char.toUpper⟩

/-- Embedding of the message composition for one changed row (`main.rs`
lines 81-90): render the cells comma-joined; the first cell must exist
(`context "No first row"`) and be a string (`context "First row not a
string"`); uppercase it and look it up in `ids`, prepending a mention of the
mapped id when found. -/
def composeMessage (ids : List (String × String)) (row : List Value) :
    Except String String :=
  let content := String.intercalate ", " (row.map renderCell)
  match row.head? with
  | none => Except.error "No first row"
  | some v =>
    match v with
    | Value.str s =>
      let numero_aluno := rustToUpper s
      let extra := match idsLookup ids numero_aluno with
        | some id => "<@" ++ id ++ "> "
        | none => ""
      Except.ok (extra ++ content)
    | _ => Except.error "First row not a string"

/-- Embedding of the diff-and-notify loop of `tick` (`main.rs` lines 78-94):
walk the new and previous snapshots in lockstep (`zip`, so iteration stops at
the shorter), and for each position where the rows differ structurally,
compose the message and dispatch it.  `i` is the current row index, `k`
counts dispatch attempts so far (indexing the `sendOk` oracle).  Returns the
list of successfully dispatched notifications as `(row index, message)`
pairs, in dispatch order, together with the error that aborted the cycle, if
any: a failed composition is `AppError::Other` with the context message, and
a failed dispatch is `AppError::Other` from `send_webhook_message`'s
context.  The `?` operator makes both abort all remaining rows. -/
def diffNotify (ids : List (String × String)) (sendOk : Nat → Bool) :
    List (List Value) → List (List Value) → Nat → Nat →
    List (Nat × String) × Option AppError
  | newRow :: newRest, oldRow :: oldRest, i, k =>
    if newRow = oldRow then
      diffNotify ids sendOk newRest oldRest (i + 1) k
    else
      match composeMessage ids newRow with
      | Except.error m => ([], some (AppError.other m))
      | Except.ok msg =>
        if sendOk k then
          let rest := diffNotify ids sendOk newRest oldRest (i + 1) (k + 1)
          ((i, msg) :: rest.1, rest.2)
        else ([], some (AppError.other "Failed to send webhook message"))
  | _, _, _, _ => ([], none)

/-- Embedding of `tick` (`main.rs` lines 70-96): fetch under the timeout,
then diff-and-notify against the previous snapshot; on full success return
the new snapshot as the cycle's result.  The first component is the trace of
notifications dispatched during the cycle. -/
def tick (ids : List (String × String)) (sendOk : Nat → Bool)
    (f : FetchBehavior) (previous_data : SheetsContent) :
    List (Nat × String) × Except AppError SheetsContent :=
  match get_sheet_values_timeout f with
  | Except.error e => ([], Except.error e)
  | Except.ok new_data =>
    match diffNotify ids sendOk new_data previous_data 0 0 with
    | (trace, none) => (trace, Except.ok new_data)
    | (trace, some e) => (trace, Except.error e)

/-- State owned by the loop driver in `main` (`main.rs` lines 33-57):
the retained snapshot and the time of the last Google-API alert. -/
structure LoopState where
  current_data : SheetsContent
  last_error_time : Option Nat
  deriving DecidableEq

/-- Observable outcome of one iteration of the `main` loop. -/
structure StepOutput where
  state : LoopState
  notifications : List (Nat × String)
  alert : Bool
  deriving DecidableEq

/-- Embedding of one iteration of the `main` loop body (`main.rs` lines
45-56), at wall-clock time `now` (in the seconds of `Instant::elapsed`).  On
`Ok` the fetched snapshot replaces the retained one; on `GoogleAPI` an alert
is sent iff no alert time is recorded or more than `60 * 10` seconds have
elapsed since it, updating the recorded time exactly then; `Timeout` and
`Other` only log. -/
def loopStep (ids : List (String × String)) (sendOk : Nat → Bool)
    (now : Nat) (f : FetchBehavior) (st : LoopState) : StepOutput :=
  match tick ids sendOk f st.current_data with
  | (trace, Except.ok new_data) =>
    ⟨⟨new_data, st.last_error_time⟩, trace, false⟩
  | (trace, Except.error (AppError.googleAPI _)) =>
    match st.last_error_time with
    | none => ⟨⟨st.current_data, some now⟩, trace, true⟩
    | some t =>
      if 60 * 10 < now - t then ⟨⟨st.current_data, some now⟩, trace, true⟩
      else ⟨⟨st.current_data, st.last_error_time⟩, trace, false⟩
  | (trace, Except.error AppError.timeout) =>
    ⟨⟨st.current_data, st.last_error_time⟩, trace, false⟩
  | (trace, Except.error (AppError.other _)) =>
    ⟨⟨st.current_data, st.last_error_time⟩, trace, false⟩

/-- Run of the loop driver over a sequence of cycles, each given by its
wall-clock time and fetch behaviour; returns the times at which external
alerts were sent. -/
def runLoop (ids : List (String × String)) (sendOk : Nat → Bool)
    (st : LoopState) : List (Nat × FetchBehavior) → List Nat
  | [] => []
  | (now, f) :: rest =>
    let out := loopStep ids sendOk now f st
    (if out.alert then [now] else []) ++ runLoop ids sendOk out.state rest

/-- Embedding of `main` (`main.rs` lines 21-58) after configuration: one
unbounded initial fetch establishes the first snapshot — its failure is
propagated by `?` and terminates the process — then the startup announcement
(`Bot started …`, `main.rs` lines 36-38) is dispatched to the webhook, whose
failure is likewise propagated by `?` and terminates the process before the
loop starts (`bootSendOk` is that dispatch's outcome, and the anyhow context
message of `send_webhook_message` stands for the boxed error); only then does
the loop run, with every cycle error handled inline by the `match`. -/
def mainRun (ids : List (String × String)) (sendOk : Nat → Bool)
    (bootSendOk : Bool) (boot : FetchBehavior)
    (events : List (Nat × FetchBehavior)) : Except AppError (List Nat) :=
  match get_sheet_values boot with
  | Except.error e => Except.error e
  | Except.ok data0 =>
    if bootSendOk then Except.ok (runLoop ids sendOk ⟨data0, none⟩ events)
    else Except.error (AppError.other "Failed to send webhook message")

/-- Indices at which the two snapshots differ, walking in lockstep from
index `j`: the specification's changed-index set, as an ordered list. -/
def changedIndices : List (List Value) → List (List Value) → Nat → List Nat
  | n :: ns, o :: os, j =>
    (if n = o then [] else [j]) ++ changedIndices ns os (j + 1)
  | _, _, _ => []

/-- Uppercasing a character never yields an ASCII lowercase letter. -/
theorem toUpper_not_lower (c : Char) : (Char.toUpper c).isLower = false := by
  rw [Char.toUpper]
  simp only [Char.toNat]
  split
  · rename_i h
    obtain ⟨h1, h2⟩ := h
    have hval : (Char.ofNat (c.val.toNat - 32)).val.toNat = c.val.toNat - 32 := by
      rw [Char.ofNat, dif_pos]
      · rfl
      · left
        omega
    rw [Char.isLower]
    rw [Bool.and_eq_false_iff]
    left
    simp only [ge_iff_le, decide_eq_false_iff_not]
    rw [UInt32.le_def, BitVec.le_def]
    have h97 : ((97 : UInt32)).toBitVec.toNat = 97 := rfl
    have : (Char.ofNat (c.val.toNat - 32)).val.toBitVec.toNat = c.val.toNat - 32 := hval
    omega
  · rename_i h
    rw [Char.isLower]
    rw [Bool.and_eq_false_iff]
    have hv : c.val.toBitVec.toNat = c.val.toNat := rfl
    by_cases h97 : c.val.toNat ≥ 97
    · right
      simp only [decide_eq_false_iff_not]
      rw [UInt32.le_def, BitVec.le_def]
      have : ((122 : UInt32)).toBitVec.toNat = 122 := rfl
      omega
    · left
      simp only [ge_iff_le, decide_eq_false_iff_not]
      rw [UInt32.le_def, BitVec.le_def]
      have : ((97 : UInt32)).toBitVec.toNat = 97 := rfl
      omega

/-- The ASCII uppercasing model agrees with `String.toUpper`. -/
theorem rustToUpper_eq (s : String) : rustToUpper s = String.toUpper s := by
  rw [String.toUpper, String.map_eq, rustToUpper]

/-- Membership in the changed-index list, with an arbitrary starting
offset. -/
theorem changedIndices_mem (ns : List (List Value)) :
    ∀ (os : List (List Value)) (j i : Nat),
      i ∈ changedIndices ns os j ↔
        ∃ d, d < min ns.length os.length ∧ ns[d]? ≠ os[d]? ∧ i = j + d := by
  induction ns with
  | nil =>
    intro os j i
    simp [changedIndices]
  | cons n ns ih =>
    intro os j i
    cases os with
    | nil => simp [changedIndices]
    | cons o os =>
      rw [changedIndices, List.mem_append]
      constructor
      · intro h
        rcases h with h | h
        · by_cases hno : n = o
          · rw [if_pos hno] at h
            simp at h
          · rw [if_neg hno] at h
            simp at h
            subst h
            refine ⟨0, ?_, ?_, by omega⟩
            · simp
            · simpa using hno
        · rcases (ih os (j + 1) i).mp h with ⟨d, hd, hne, rfl⟩
          refine ⟨d + 1, ?_, ?_, by omega⟩
          · simp at hd ⊢
            omega
          · simpa using hne
      · rintro ⟨d, hd, hne, rfl⟩
        cases d with
        | zero =>
          simp only [List.getElem?_cons_zero] at hne
          have hno : n ≠ o := by
            intro hcontr
            exact hne (by rw [hcontr])
          left
          rw [if_neg hno]
          simp
        | succ d =>
          right
          refine (ih os (j + 1) (j + (d + 1))).mpr ⟨d, ?_, ?_, by omega⟩
          · simp at hd ⊢
            omega
          · simpa using hne

/-- Every changed index is at least the starting offset. -/
theorem changedIndices_ge (ns : List (List Value)) :
    ∀ (os : List (List Value)) (j : Nat), ∀ i ∈ changedIndices ns os j, j ≤ i := by
  induction ns with
  | nil =>
    intro os j i hi
    simp [changedIndices] at hi
  | cons n ns ih =>
    intro os j i hi
    cases os with
    | nil => simp [changedIndices] at hi
    | cons o os =>
      rw [changedIndices] at hi
      rcases List.mem_append.mp hi with h | h
      · by_cases hno : n = o
        · rw [if_pos hno] at h
          simp at h
        · rw [if_neg hno] at h
          simp at h
          omega
      · have := ih os (j + 1) i h
        omega

/-- The changed-index list is strictly increasing. -/
theorem changedIndices_sorted (ns : List (List Value)) :
    ∀ (os : List (List Value)) (j : Nat),
      List.Pairwise (fun a b => a < b) (changedIndices ns os j) := by
  induction ns with
  | nil =>
    intro os j
    simp [changedIndices]
  | cons n ns ih =>
    intro os j
    cases os with
    | nil => simp [changedIndices]
    | cons o os =>
      rw [changedIndices]
      by_cases hno : n = o
      · rw [if_pos hno]
        simpa using ih os (j + 1)
      · rw [if_neg hno]
        simp only [List.singleton_append, List.pairwise_cons]
        refine ⟨fun b hb => ?_, ih os (j + 1)⟩
        have := changedIndices_ge ns os (j + 1) b hb
        omega

/-- The only composition failures are the two first-cell context messages. -/
theorem composeMessage_error (ids : List (String × String)) (row : List Value)
    (m : String) (h : composeMessage ids row = Except.error m) :
    m = "No first row" ∨ m = "First row not a string" := by
  rw [composeMessage] at h
  cases hr : row.head? with
  | none =>
    rw [hr] at h
    simp at h
    exact Or.inl h.symm
  | some v =>
    rw [hr] at h
    cases v with
    | str s => simp at h
    | num n =>
      simp at h
      exact Or.inr h.symm
    | bool b =>
      simp at h
      exact Or.inr h.symm
    | null =>
      simp at h
      exact Or.inr h.symm

/-- A row whose first cell is absent or not a string makes the composition
fail. -/
theorem composeMessage_malformed (ids : List (String × String)) (row : List Value)
    (h : ∀ s : String, row.head? ≠ some (Value.str s)) :
    (row.head? = none ∧ composeMessage ids row = Except.error "No first row") ∨
    ((∃ v, row.head? = some v) ∧
      composeMessage ids row = Except.error "First row not a string") := by
  rw [composeMessage]
  cases hr : row.head? with
  | none => exact Or.inl ⟨rfl, rfl⟩
  | some v =>
    refine Or.inr ⟨⟨v, rfl⟩, ?_⟩
    cases v with
    | str s => exact absurd hr (h s)
    | num n => rfl
    | bool b => rfl
    | null => rfl

/-- Diffing a snapshot against itself notifies nothing and succeeds. -/
theorem diffNotify_self (ids : List (String × String)) (sendOk : Nat → Bool)
    (l : List (List Value)) :
    ∀ i k, diffNotify ids sendOk l l i k = ([], none) := by
  induction l with
  | nil => intro i k; rfl
  | cons x xs ih =>
    intro i k
    rw [diffNotify, if_pos rfl]
    exact ih (i + 1) k

/-- When every dispatch succeeds and every changed row composes, the
diff-and-notify pass notifies exactly the changed indices, in order, and
reports no error. -/
theorem diffNotify_ok (ids : List (String × String)) (sendOk : Nat → Bool)
    (hsend : ∀ k, sendOk k = true) (ns : List (List Value)) :
    ∀ (os : List (List Value)) (i k : Nat),
      (∀ pr ∈ ns.zip os, pr.1 ≠ pr.2 → (composeMessage ids pr.1).isOk = true) →
      (diffNotify ids sendOk ns os i k).1.map Prod.fst = changedIndices ns os i ∧
      (diffNotify ids sendOk ns os i k).2 = none := by
  induction ns with
  | nil =>
    intro os i k _
    cases os <;> simp [diffNotify, changedIndices]
  | cons n ns ih =>
    intro os i k hcomp
    cases os with
    | nil => simp [diffNotify, changedIndices]
    | cons o os =>
      have hcomp' : ∀ pr ∈ ns.zip os, pr.1 ≠ pr.2 →
          (composeMessage ids pr.1).isOk = true := by
        intro pr hpr
        exact hcomp pr (by simp [hpr])
      rw [diffNotify, changedIndices]
      by_cases hno : n = o
      · rw [if_pos hno, if_pos hno, List.nil_append]
        exact ih os (i + 1) k hcomp'
      · rw [if_neg hno, if_neg hno]
        have hc : (composeMessage ids n).isOk = true :=
          hcomp (n, o) (by simp) hno
        cases hcm : composeMessage ids n with
        | error m =>
          rw [hcm] at hc
          simp [Except.isOk, Except.toBool] at hc
        | ok msg =>
          obtain ⟨h1, h2⟩ := ih os (i + 1) (k + 1) hcomp'
          simp only [hsend k, if_true, List.map_cons, List.singleton_append,
            h1, h2]
          constructor <;> trivial

/-- When the diff-and-notify pass aborts with an error, the error is one of
the three `Other` failures, and the notified indices are exactly the changed
indices strictly before the changed index `j` at which the failure occurred:
the changed-index list decomposes as the notified indices followed by
`j :: rest`. -/
theorem diffNotify_error (ids : List (String × String)) (sendOk : Nat → Bool)
    (ns : List (List Value)) :
    ∀ (os : List (List Value)) (i k : Nat) (trace : List (Nat × String))
      (e : AppError),
      diffNotify ids sendOk ns os i k = (trace, some e) →
      (e = AppError.other "No first row" ∨
        e = AppError.other "First row not a string" ∨
        e = AppError.other "Failed to send webhook message") ∧
      ∃ j rest, changedIndices ns os i = trace.map Prod.fst ++ j :: rest := by
  induction ns with
  | nil =>
    intro os i k trace e h
    cases os <;> simp [diffNotify] at h
  | cons n ns ih =>
    intro os i k trace e h
    cases os with
    | nil => simp [diffNotify] at h
    | cons o os =>
      rw [diffNotify] at h
      rw [changedIndices]
      by_cases hno : n = o
      · rw [if_pos hno] at h
        rw [if_pos hno, List.nil_append]
        exact ih os (i + 1) k trace e h
      · rw [if_neg hno] at h
        rw [if_neg hno]
        cases hcm : composeMessage ids n with
        | error m =>
          rw [hcm] at h
          obtain ⟨rfl, he⟩ := Prod.mk.injEq .. ▸ h
          obtain rfl : AppError.other m = e := by
            injection he
          refine ⟨?_, i, changedIndices ns os (i + 1), by simp⟩
          rcases composeMessage_error ids n m hcm with h1 | h1 <;>
            simp [h1]
        | ok msg =>
          rw [hcm] at h
          cases hsk : sendOk k with
          | false =>
            rw [hsk] at h
            simp only [Bool.false_eq_true, if_false] at h
            obtain ⟨rfl, he⟩ := Prod.mk.injEq .. ▸ h
            obtain rfl : AppError.other "Failed to send webhook message" = e := by
              injection he
            exact ⟨Or.inr (Or.inr rfl), i, changedIndices ns os (i + 1), by simp⟩
          | true =>
            rw [hsk] at h
            simp only [if_true] at h
            cases hr : diffNotify ids sendOk ns os (i + 1) (k + 1) with
            | mk t2 e2 =>
              rw [hr] at h
              obtain ⟨htr, he⟩ := Prod.mk.injEq .. ▸ h
              subst htr
              cases e2 with
              | none => simp at he
              | some e2 =>
                obtain rfl : e2 = e := by injection he
                obtain ⟨hmsg, j, rest, hchanged⟩ :=
                  ih os (i + 1) (k + 1) t2 e2 hr
                refine ⟨hmsg, j, rest, ?_⟩
                simp only [List.map_cons, List.singleton_append, hchanged]
                rfl

/-- In a strictly increasing list decomposed around an element `j`,
everything before `j` is below `j`, and filtering the whole list below `j`
returns exactly the front part. -/
theorem sorted_decomp_filter (T : List Nat) (j : Nat) (rest : List Nat)
    (h : List.Pairwise (fun a b => a < b) (T ++ j :: rest)) :
    (∀ x ∈ T, x < j) ∧
    (T ++ j :: rest).filter (fun i => decide (i < j)) = T := by
  rw [List.pairwise_append] at h
  obtain ⟨h1, h2, h3⟩ := h
  have hT : ∀ x ∈ T, x < j := fun x hx => h3 x hx j (by simp)
  refine ⟨hT, ?_⟩
  rw [List.filter_append]
  have e1 : T.filter (fun i => decide (i < j)) = T := by
    rw [List.filter_eq_self]
    intro a ha
    simpa using hT a ha
  have e2 : (j :: rest).filter (fun i => decide (i < j)) = [] := by
    rw [List.filter_eq_nil_iff]
    intro a ha
    simp only [decide_eq_true_eq]
    rcases List.mem_cons.mp ha with rfl | ha
    · omega
    · have := List.rel_of_pairwise_cons h2 ha
      omega
  rw [e1, e2, List.append_nil]

/-- C1: for every retained snapshot `s_old` and fetched snapshot `s_new`,
assuming the fetch succeeded, every changed row's first-cell extraction
succeeds, and every dispatch succeeds, the set of row indices tick notifies
is exactly the set of `i` below the length of the shorter snapshot whose
rows differ structurally; rows beyond the shorter snapshot are never
notified, and the cycle returns the new snapshot. -/
theorem claim_C1 (ids : List (String × String)) (sendOk : Nat → Bool)
    (f : FetchBehavior) (s_old s_new : SheetsContent)
    (hfetch : get_sheet_values_timeout f = Except.ok s_new)
    (hcomp : ∀ pr ∈ s_new.zip s_old, pr.1 ≠ pr.2 →
      (composeMessage ids pr.1).isOk = true)
    (hsend : ∀ k, sendOk k = true) :
    (∀ i, i ∈ (tick ids sendOk f s_old).1.map Prod.fst ↔
        (i < min s_old.length s_new.length ∧ s_old[i]? ≠ s_new[i]?)) ∧
    (tick ids sendOk f s_old).2 = Except.ok s_new := by
  have hd := diffNotify_ok ids sendOk hsend s_new s_old 0 0 hcomp
  rcases hr : diffNotify ids sendOk s_new s_old 0 0 with ⟨trace, err⟩
  rw [hr] at hd
  obtain ⟨h1, h2⟩ := hd
  dsimp only at h1 h2
  subst h2
  rw [tick, hfetch]
  dsimp only
  rw [hr]
  dsimp only
  constructor
  · intro i
    rw [h1, changedIndices_mem]
    constructor
    · rintro ⟨d, hd', hne, rfl⟩
      refine ⟨by omega, ?_⟩
      simpa [Nat.zero_add] using Ne.symm hne
    · rintro ⟨hi, hne⟩
      exact ⟨i, by omega, Ne.symm hne, by omega⟩
  · rfl

/-- Witness for C1 at a concrete pair of snapshots: with old snapshot
`[[a],[c],[d]]` and new `[[a],[b]]`, index 1 is notified, and the cycle
returns the new snapshot (index 2, beyond the shorter snapshot, is not in
the changed set). -/
theorem claim_C1_witness :
    (1 ∈ (tick [] (fun _ => true)
        ⟨0, Except.ok [[Value.str "a"], [Value.str "b"]]⟩
        [[Value.str "a"], [Value.str "c"], [Value.str "d"]]).1.map Prod.fst) ∧
    (tick [] (fun _ => true)
        ⟨0, Except.ok [[Value.str "a"], [Value.str "b"]]⟩
        [[Value.str "a"], [Value.str "c"], [Value.str "d"]]).2 =
      Except.ok [[Value.str "a"], [Value.str "b"]] := by
  have h := claim_C1 [] (fun _ => true)
    ⟨0, Except.ok [[Value.str "a"], [Value.str "b"]]⟩
    [[Value.str "a"], [Value.str "c"], [Value.str "d"]]
    [[Value.str "a"], [Value.str "b"]]
    rfl (by decide) (fun _ => rfl)
  exact ⟨(h.1 1).mpr (by decide), h.2⟩

/-- C3: when the fetch exceeds the 5-time-unit timeout, the cycle returns
`Timeout`, no notification is dispatched, and the loop driver leaves the
retained snapshot and alert state unchanged, sending no alert. -/
theorem claim_C3 (ids : List (String × String)) (sendOk : Nat → Bool)
    (now : Nat) (f : FetchBehavior) (st : LoopState)
    (h : 5 < f.duration) :
    tick ids sendOk f st.current_data = ([], Except.error AppError.timeout) ∧
    loopStep ids sendOk now f st = ⟨st, [], false⟩ := by
  have ht : get_sheet_values_timeout f = Except.error AppError.timeout := by
    rw [get_sheet_values_timeout, if_pos h]
  have htick : tick ids sendOk f st.current_data =
      ([], Except.error AppError.timeout) := by
    rw [tick, ht]
  refine ⟨htick, ?_⟩
  rw [loopStep, htick]

/-- Witness for C3: a fetch taking 6 time-units times out and changes
nothing. -/
theorem claim_C3_witness :
    tick [] (fun _ => true) ⟨6, Except.ok []⟩ [[Value.null]] =
      ([], Except.error AppError.timeout) ∧
    loopStep [] (fun _ => true) 0 ⟨6, Except.ok []⟩ ⟨[[Value.null]], none⟩ =
      ⟨⟨[[Value.null]], none⟩, [], false⟩ :=
  claim_C3 [] (fun _ => true) 0 ⟨6, Except.ok []⟩ ⟨[[Value.null]], none⟩
    (by decide)

/-- C8: a cycle whose fetch returns a snapshot structurally equal to the
retained one produces zero notifications and returns that same snapshot, so
a second run against an unchanged upstream source notifies nothing. -/
theorem claim_C8 (ids : List (String × String)) (sendOk : Nat → Bool)
    (f : FetchBehavior) (s : SheetsContent)
    (hfetch : get_sheet_values_timeout f = Except.ok s) :
    tick ids sendOk f s = ([], Except.ok s) := by
  rw [tick, hfetch]
  dsimp only
  rw [diffNotify_self ids sendOk s 0 0]

/-- Witness for C8: re-fetching the same one-row snapshot notifies
nothing. -/
theorem claim_C8_witness :
    tick [("A1", "99")] (fun _ => true)
      ⟨0, Except.ok [[Value.str "a1", Value.num 5]]⟩
      [[Value.str "a1", Value.num 5]] =
    ([], Except.ok [[Value.str "a1", Value.num 5]]) :=
  claim_C8 [("A1", "99")] (fun _ => true)
    ⟨0, Except.ok [[Value.str "a1", Value.num 5]]⟩
    [[Value.str "a1", Value.num 5]] rfl

/-- A cycle that fetched successfully but returned an error got that error
from the diff-and-notify pass. -/
theorem tick_error_decomp (ids : List (String × String)) (sendOk : Nat → Bool)
    (f : FetchBehavior) (prev new_data : SheetsContent)
    (trace : List (Nat × String)) (e : AppError)
    (hfetch : get_sheet_values_timeout f = Except.ok new_data)
    (htick : tick ids sendOk f prev = (trace, Except.error e)) :
    diffNotify ids sendOk new_data prev 0 0 = (trace, some e) := by
  rw [tick, hfetch] at htick
  dsimp only at htick
  rcases hr : diffNotify ids sendOk new_data prev 0 0 with ⟨t2, err⟩
  rw [hr] at htick
  cases err with
  | none =>
    dsimp only at htick
    obtain ⟨_, he⟩ := Prod.mk.injEq .. ▸ htick
    exact absurd he (by simp)
  | some e2 =>
    dsimp only at htick
    obtain ⟨rfl, he⟩ := Prod.mk.injEq .. ▸ htick
    obtain rfl : e2 = e := by injection he
    rfl

/-- C9: when a cycle whose fetch succeeded aborts with an error, the failure
happened at some changed row index `j`: the changed indices decompose as
the notified trace followed by `j` and the remaining changed indices, the
notified indices are exactly the changed indices strictly below `j`, and
they were dispatched in increasing index order. -/
theorem claim_C9 (ids : List (String × String)) (sendOk : Nat → Bool)
    (f : FetchBehavior) (prev new_data : SheetsContent)
    (trace : List (Nat × String)) (e : AppError)
    (hfetch : get_sheet_values_timeout f = Except.ok new_data)
    (htick : tick ids sendOk f prev = (trace, Except.error e)) :
    ∃ j rest,
      changedIndices new_data prev 0 = trace.map Prod.fst ++ j :: rest ∧
      trace.map Prod.fst =
        (changedIndices new_data prev 0).filter (fun i => decide (i < j)) ∧
      (∀ p ∈ trace, p.1 < j) ∧
      List.Pairwise (fun a b => a < b) (trace.map Prod.fst) := by
  have hr := tick_error_decomp ids sendOk f prev new_data trace e hfetch htick
  obtain ⟨_, j, rest, hdec⟩ :=
    diffNotify_error ids sendOk new_data prev 0 0 trace e hr
  have hsorted := changedIndices_sorted new_data prev 0
  rw [hdec] at hsorted
  obtain ⟨hlt, hfil⟩ := sorted_decomp_filter _ j rest hsorted
  refine ⟨j, rest, hdec, ?_, ?_, ?_⟩
  · rw [hdec, hfil]
  · intro p hp
    exact hlt p.1 (List.mem_map_of_mem Prod.fst hp)
  · exact (List.pairwise_append.mp hsorted).1

/-- Witness for C9: with three changed rows and the second dispatch failing,
only index 0 is notified, and the decomposition puts the failure at changed
index 1 with index 2 unprocessed. -/
theorem claim_C9_witness :
    ∃ j rest,
      changedIndices [[Value.str "a"], [Value.str "b"], [Value.str "c"]]
          [[Value.num 0], [Value.num 0], [Value.num 0]] 0 =
        ([(0, "\"a\"")] : List (Nat × String)).map Prod.fst ++ j :: rest ∧
      ([(0, "\"a\"")] : List (Nat × String)).map Prod.fst =
        (changedIndices [[Value.str "a"], [Value.str "b"], [Value.str "c"]]
          [[Value.num 0], [Value.num 0], [Value.num 0]] 0).filter
            (fun i => decide (i < j)) ∧
      (∀ p ∈ ([(0, "\"a\"")] : List (Nat × String)), p.1 < j) ∧
      List.Pairwise (fun a b => a < b)
        (([(0, "\"a\"")] : List (Nat × String)).map Prod.fst) :=
  claim_C9 [] (fun k => k != 1)
    ⟨0, Except.ok [[Value.str "a"], [Value.str "b"], [Value.str "c"]]⟩
    [[Value.num 0], [Value.num 0], [Value.num 0]]
    [[Value.str "a"], [Value.str "b"], [Value.str "c"]]
    [(0, "\"a\"")] (AppError.other "Failed to send webhook message")
    rfl (by decide)

/-- C6: when a cycle whose fetch succeeded aborts (a dispatch failure or a
malformed row), the returned error is classified `Other` — one of the two
first-cell context messages or the webhook dispatch context message — and
processing is fail-fast: the changed rows from the failing index `j` on are
not notified. -/
theorem claim_C6 (ids : List (String × String)) (sendOk : Nat → Bool)
    (f : FetchBehavior) (prev new_data : SheetsContent)
    (trace : List (Nat × String)) (e : AppError)
    (hfetch : get_sheet_values_timeout f = Except.ok new_data)
    (htick : tick ids sendOk f prev = (trace, Except.error e)) :
    (e = AppError.other "No first row" ∨
      e = AppError.other "First row not a string" ∨
      e = AppError.other "Failed to send webhook message") ∧
    ∃ j rest,
      changedIndices new_data prev 0 = trace.map Prod.fst ++ j :: rest ∧
      ∀ p ∈ trace, p.1 < j := by
  have hr := tick_error_decomp ids sendOk f prev new_data trace e hfetch htick
  obtain ⟨hmsg, j, rest, hdec⟩ :=
    diffNotify_error ids sendOk new_data prev 0 0 trace e hr
  have hsorted := changedIndices_sorted new_data prev 0
  rw [hdec] at hsorted
  obtain ⟨hlt, _⟩ := sorted_decomp_filter _ j rest hsorted
  exact ⟨hmsg, j, rest, hdec, fun p hp =>
    hlt p.1 (List.mem_map_of_mem Prod.fst hp)⟩

/-- Witness for C6: a failing dispatch on the only changed row yields the
`Other` dispatch error with an empty trace. -/
theorem claim_C6_witness :
    ((AppError.other "Failed to send webhook message" =
        AppError.other "No first row" ∨
      AppError.other "Failed to send webhook message" =
        AppError.other "First row not a string" ∨
      AppError.other "Failed to send webhook message" =
        AppError.other "Failed to send webhook message") ∧
    ∃ j rest,
      changedIndices [[Value.str "a"]] [[Value.num 0]] 0 =
        ([] : List (Nat × String)).map Prod.fst ++ j :: rest ∧
      ∀ p ∈ ([] : List (Nat × String)), p.1 < j) :=
  claim_C6 [] (fun _ => false) ⟨0, Except.ok [[Value.str "a"]]⟩
    [[Value.num 0]] [[Value.str "a"]] []
    (AppError.other "Failed to send webhook message") rfl (by decide)

/-- Counterexample to C2 as stated: with retained snapshot `[["x"]]` and a
fetched snapshot `[[5]]` whose changed row's first cell is a number, the
cycle fails with the malformed-row error, yet the fetched snapshot does NOT
become the retained previous snapshot — the loop driver leaves the old
snapshot in place (`Ok` is the only arm of the `main` match that stores
`new_data`). -/
theorem claim_C2_counterexample :
    tick [] (fun _ => true) ⟨0, Except.ok [[Value.num 5]]⟩ [[Value.str "x"]] =
      ([], Except.error (AppError.other "First row not a string")) ∧
    (loopStep [] (fun _ => true) 0 ⟨0, Except.ok [[Value.num 5]]⟩
        ⟨[[Value.str "x"]], none⟩).state.current_data = [[Value.str "x"]] ∧
    ([[Value.str "x"]] : SheetsContent) ≠ [[Value.num 5]] := by
  decide

/-- C2 (amended): when a cycle whose fetch succeeded fails with an `Other`
error — in particular when a changed row's first cell is absent or not a
string, which always produces such an error — the remaining diffs are not
processed, no alert is sent, and the fetched snapshot is NOT retained: the
loop driver leaves the previous snapshot and the alert state unchanged. -/
theorem claim_C2 (ids : List (String × String)) (sendOk : Nat → Bool)
    (now : Nat) (f : FetchBehavior) (st : LoopState)
    (new_data : SheetsContent) (trace : List (Nat × String)) (m : String)
    (hfetch : get_sheet_values_timeout f = Except.ok new_data)
    (htick : tick ids sendOk f st.current_data =
      (trace, Except.error (AppError.other m))) :
    (loopStep ids sendOk now f st).state = st ∧
    (loopStep ids sendOk now f st).alert = false ∧
    (∀ row : List Value, (∀ s : String, row.head? ≠ some (Value.str s)) →
      composeMessage ids row = Except.error "No first row" ∨
      composeMessage ids row = Except.error "First row not a string") ∧
    ∃ j rest, changedIndices new_data st.current_data 0 =
      trace.map Prod.fst ++ j :: rest := by
  refine ⟨?_, ?_, ?_, ?_⟩
  · rw [loopStep, htick]
  · rw [loopStep, htick]
  · intro row hrow
    rcases composeMessage_malformed ids row hrow with ⟨_, hc⟩ | ⟨_, hc⟩
    · exact Or.inl hc
    · exact Or.inr hc
  · have hr := tick_error_decomp ids sendOk f st.current_data new_data trace
      (AppError.other m) hfetch htick
    obtain ⟨_, j, rest, hdec⟩ :=
      diffNotify_error ids sendOk new_data st.current_data 0 0 trace
        (AppError.other m) hr
    exact ⟨j, rest, hdec⟩

/-- Witness for C2 (amended) at the counterexample input: the malformed row
aborts the cycle and the driver keeps the old snapshot. -/
theorem claim_C2_witness :
    (loopStep [] (fun _ => true) 0 ⟨0, Except.ok [[Value.num 5]]⟩
        ⟨[[Value.str "x"]], none⟩).state = ⟨[[Value.str "x"]], none⟩ ∧
    (loopStep [] (fun _ => true) 0 ⟨0, Except.ok [[Value.num 5]]⟩
        ⟨[[Value.str "x"]], none⟩).alert = false := by
  have h := claim_C2 [] (fun _ => true) 0 ⟨0, Except.ok [[Value.num 5]]⟩
    ⟨[[Value.str "x"]], none⟩ [[Value.num 5]] [] "First row not a string"
    rfl (by decide)
  exact ⟨h.1, h.2.1⟩

/-- C4: the loop driver alerts on a `GoogleAPI` cycle error iff no alert
time is recorded or more than 10 minutes (600 seconds) have elapsed since
the recorded one, and it records the current time exactly when it alerts;
non-`GoogleAPI` outcomes never alert and never touch the recorded time; two
source errors 1 minute apart yield one alert, and 11 minutes apart two
alerts. -/
theorem claim_C4 :
    (∀ (ids : List (String × String)) (sendOk : Nat → Bool) (now : Nat)
        (f : FetchBehavior) (st : LoopState) (trace : List (Nat × String))
        (e : String),
      tick ids sendOk f st.current_data =
        (trace, Except.error (AppError.googleAPI e)) →
      (((loopStep ids sendOk now f st).alert = true) ↔
        (st.last_error_time = none ∨
          ∃ t, st.last_error_time = some t ∧ 60 * 10 < now - t)) ∧
      (loopStep ids sendOk now f st).state.last_error_time =
        (if (loopStep ids sendOk now f st).alert then some now
         else st.last_error_time)) ∧
    (∀ (ids : List (String × String)) (sendOk : Nat → Bool) (now : Nat)
        (f : FetchBehavior) (st : LoopState) (trace : List (Nat × String)),
      ((∃ d, tick ids sendOk f st.current_data = (trace, Except.ok d)) ∨
        tick ids sendOk f st.current_data =
          (trace, Except.error AppError.timeout) ∨
        (∃ m, tick ids sendOk f st.current_data =
          (trace, Except.error (AppError.other m)))) →
      (loopStep ids sendOk now f st).alert = false ∧
      (loopStep ids sendOk now f st).state.last_error_time =
        st.last_error_time) ∧
    runLoop [] (fun _ => true) ⟨[], none⟩
      [(0, ⟨0, Except.error (AppError.googleAPI "boom")⟩),
       (60, ⟨0, Except.error (AppError.googleAPI "boom")⟩)] = [0] ∧
    runLoop [] (fun _ => true) ⟨[], none⟩
      [(0, ⟨0, Except.error (AppError.googleAPI "boom")⟩),
       (660, ⟨0, Except.error (AppError.googleAPI "boom")⟩)] = [0, 660] := by
  refine ⟨?_, ?_, by decide, by decide⟩
  · intro ids sendOk now f st trace e htick
    rw [loopStep, htick]
    cases hl : st.last_error_time with
    | none =>
      dsimp only
      simp
    | some t =>
      dsimp only
      by_cases hcond : 60 * 10 < now - t
      · rw [if_pos hcond]
        simp [hcond]
      · rw [if_neg hcond]
        simp [hcond]
  · intro ids sendOk now f st trace hout
    rcases hout with ⟨d, htick⟩ | htick | ⟨m, htick⟩ <;>
      rw [loopStep, htick] <;> exact ⟨rfl, rfl⟩

/-- Witness for C4: a source error with no recorded alert time alerts; a
timed-out cycle does not. -/
theorem claim_C4_witness :
    (loopStep [] (fun _ => true) 0
        ⟨0, Except.error (AppError.googleAPI "boom")⟩ ⟨[], none⟩).alert = true ∧
    (loopStep [] (fun _ => true) 7 ⟨9, Except.ok []⟩ ⟨[], some 3⟩).alert = false := by
  constructor
  · exact ((claim_C4.1 [] (fun _ => true) 0
      ⟨0, Except.error (AppError.googleAPI "boom")⟩ ⟨[], none⟩ [] "boom"
      rfl).1).mpr (Or.inl rfl)
  · exact (claim_C4.2.1 [] (fun _ => true) 7 ⟨9, Except.ok []⟩ ⟨[], some 3⟩ []
      (Or.inr (Or.inl (by decide)))).1

/-- C5: for a changed row whose first cell is the string `s`, the composed
message is the uppercase lookup's mention prefix (when the uppercased key is
mapped) or nothing (when absent), followed by the comma-joined rendering of
the row; concretely, with lookup A1 mapped to 99 a changed row starting with
the string a1 is prefixed with a mention of 99, and one starting with b2
gets no prefix. -/
theorem claim_C5 (ids : List (String × String)) (s : String)
    (rest : List Value) :
    (composeMessage ids (Value.str s :: rest) = Except.ok
      ((match idsLookup ids (rustToUpper s) with
        | some id => "<@" ++ id ++ "> "
        | none => "") ++
       String.intercalate ", " ((Value.str s :: rest).map renderCell))) ∧
    tick [("A1", "99")] (fun _ => true)
      ⟨0, Except.ok [[Value.str "a1", Value.num 6]]⟩
      [[Value.str "a1", Value.num 5]] =
      ([(0, "<@99> \"a1\", 6")], Except.ok [[Value.str "a1", Value.num 6]]) ∧
    composeMessage [("A1", "99")] [Value.str "b2"] = Except.ok "\"b2\"" :=
  ⟨rfl, by decide, by decide⟩

/-- A string uppercased character-by-character never equals a string
containing an ASCII lowercase letter. -/
theorem toUpper_ne_of_lower (s k : String)
    (h : ∃ c ∈ k.data, c.isLower = true) : rustToUpper s ≠ k := by
  rintro rfl
  obtain ⟨c, hc, hlow⟩ := h
  rw [rustToUpper] at hc
  obtain ⟨c', _, rfl⟩ := List.mem_map.mp hc
  rw [toUpper_not_lower] at hlow
  exact absurd hlow (by simp)

/-- C10: the ids loader stores each line's first whitespace token verbatim
(no uppercasing) and its second token as the value; a missing or unreadable
file yields the empty mapping; a line with fewer than two tokens contributes
no entry while other lines still load; and since the row-side key is
uppercased before lookup, an entry whose stored key contains an ASCII
lowercase letter is never found by the lookup. -/
theorem claim_C10 :
    load_ids none = [] ∧
    load_ids (some "a1 99\nonlyone\nB2 7 extra") = [("a1", "99"), ("B2", "7")] ∧
    (∀ s k : String, (∃ c ∈ k.data, c.isLower = true) → rustToUpper s ≠ k) ∧
    (∀ (ids : List (String × String)) (s key v : String),
      (∃ c ∈ key.data, c.isLower = true) →
      ids.reverse.find? (fun p => p.1 = rustToUpper s) ≠ some (key, v)) := by
  refine ⟨rfl, by decide, toUpper_ne_of_lower, ?_⟩
  intro ids s key v hkey hfind
  have hp := List.find?_some hfind
  simp only [decide_eq_true_eq] at hp
  exact toUpper_ne_of_lower s key hkey hp.symm

/-- Witness for C10: the verbatim stored key a1 is never matched, because
row-side keys are uppercased before lookup. -/
theorem claim_C10_witness :
    rustToUpper "a1" ≠ "a1" ∧
    (([("a1", "99")] : List (String × String)).reverse.find?
      (fun p => p.1 = rustToUpper "a1") ≠ some ("a1", "99")) :=
  ⟨claim_C10.2.2.1 "a1" "a1" (by decide),
   claim_C10.2.2.2 [("a1", "99")] "a1" "a1" "99" (by decide)⟩

/-- C7: the initial startup fetch is unbounded — it returns the source's
result whatever the fetch duration, even one past the 5-unit timeout that
would fail a cycle fetch — and its failure terminates the process with that
error; the startup announcement's failure is the other pre-loop fatal path;
and once the loop is running — boot fetch and announcement both succeeded —
`mainRun` returns `Ok` whatever the cycles do: every per-cycle error is
caught at the loop driver and none terminates the process. -/
theorem claim_C7 :
    (∀ b : FetchBehavior, get_sheet_values b = b.result) ∧
    (∀ b : FetchBehavior, 5 < b.duration →
      get_sheet_values b = b.result ∧
      get_sheet_values_timeout b = Except.error AppError.timeout) ∧
    (∀ (ids : List (String × String)) (sendOk : Nat → Bool)
        (bootSendOk : Bool) (boot : FetchBehavior)
        (events : List (Nat × FetchBehavior)) (e : AppError),
      boot.result = Except.error e →
      mainRun ids sendOk bootSendOk boot events = Except.error e) ∧
    (∀ (ids : List (String × String)) (sendOk : Nat → Bool)
        (boot : FetchBehavior) (events : List (Nat × FetchBehavior))
        (d : SheetsContent),
      boot.result = Except.ok d →
      mainRun ids sendOk false boot events =
        Except.error (AppError.other "Failed to send webhook message")) ∧
    (∀ (ids : List (String × String)) (sendOk : Nat → Bool)
        (boot : FetchBehavior) (events : List (Nat × FetchBehavior))
        (d : SheetsContent),
      boot.result = Except.ok d →
      mainRun ids sendOk true boot events =
        Except.ok (runLoop ids sendOk ⟨d, none⟩ events)) := by
  refine ⟨fun b => rfl, fun b h => ⟨rfl, ?_⟩, ?_, ?_, ?_⟩
  · rw [get_sheet_values_timeout, if_pos h]
  · intro ids sendOk bootSendOk boot events e he
    rw [mainRun, get_sheet_values, he]
  · intro ids sendOk boot events d hd
    rw [mainRun, get_sheet_values, hd]
    simp
  · intro ids sendOk boot events d hd
    rw [mainRun, get_sheet_values, hd]
    simp

/-- Witness for C7: a 9-unit fetch succeeds unbounded at boot but would time
out inside a cycle; a boot whose source fails exits with that error; a
failed startup announcement after a successful fetch also exits; and with
both boot steps succeeding, a run whose only cycle has a failing fetch still
returns `Ok`. -/
theorem claim_C7_witness :
    get_sheet_values ⟨9, Except.ok [[Value.null]]⟩ = Except.ok [[Value.null]] ∧
    get_sheet_values_timeout ⟨9, Except.ok [[Value.null]]⟩ =
      Except.error AppError.timeout ∧
    mainRun [] (fun _ => true) true
      ⟨0, Except.error (AppError.googleAPI "x")⟩ [] =
      Except.error (AppError.googleAPI "x") ∧
    mainRun [] (fun _ => true) false ⟨0, Except.ok []⟩ [] =
      Except.error (AppError.other "Failed to send webhook message") ∧
    mainRun [] (fun _ => true) true ⟨0, Except.ok []⟩
      [(0, ⟨0, Except.error (AppError.googleAPI "x")⟩)] =
      Except.ok (runLoop [] (fun _ => true) ⟨[], none⟩
        [(0, ⟨0, Except.error (AppError.googleAPI "x")⟩)]) := by
  obtain ⟨h1, h2⟩ := claim_C7.2.1 ⟨9, Except.ok [[Value.null]]⟩ (by decide)
  exact ⟨h1, h2,
    claim_C7.2.2.1 [] (fun _ => true) true
      ⟨0, Except.error (AppError.googleAPI "x")⟩ [] (AppError.googleAPI "x") rfl,
    claim_C7.2.2.2.1 [] (fun _ => true) ⟨0, Except.ok []⟩ [] [] rfl,
    claim_C7.2.2.2.2 [] (fun _ => true) ⟨0, Except.ok []⟩
      [(0, ⟨0, Except.error (AppError.googleAPI "x")⟩)] [] rfl⟩
